import Mathlib

/-!
Shallow embedding of `redoer.py` (senzing-garage/redoer), covering the parts
of the program that the verified claims are about: the engine-error handling
of the Execute mixins, the worker loop of `ProcessRedoQueueThread.run`, the
engine-pull generator of `QueueRedoRecordsThread.redo_records`, the Kafka
input generator of `InputKafkaMixin.redo_records`, the internal-queue
creation in `redo_processor`, the RabbitMQ delivery-mode plumbing, and the
Azure Service Bus output mixin.  Python control flow is translated into
explicit outcome values plus event traces; machine state that matters
(retry counters, attribute stores) is threaded explicitly.
-/

namespace Redoer

/-- Result of one call to the engine apply API (`g2_engine.process` or
`g2_engine.processWithInfo`): success, the `G2ModuleNotInitialized`
exception, or a generic exception carrying `err.args[0]`. -/
inductive ApplyResult where
  | ok : ApplyResult
  | notInit : ApplyResult
  | err : String → ApplyResult
deriving DecidableEq, Repr

/-- How a call to `process_redo_record` terminates: a normal return carrying
the `processed` boolean, a fatal `exit_error` (which does `sys.exit(1)`),
or an exception propagating uncaught out of the method. -/
inductive ExecOutcome where
  | returned : Bool → ExecOutcome
  | fatalExit : Nat → ExecOutcome
  | uncaught : ApplyResult → ExecOutcome
deriving DecidableEq, Repr

/-- Observable actions performed by the Execute mixins, in program order. -/
inductive ExecEvent where
  | applyCall : String → ExecEvent
  | getActiveConfigId : ExecEvent
  | getDefaultConfigId : ExecEvent
  | reinit : String → ExecEvent
  | sendToFailureQueue : String → ExecEvent
  | sendToInfoQueue : String → ExecEvent
  | incrProcessed : ExecEvent
deriving DecidableEq, Repr

/-- Responses the fake of the engine gives during one `process_redo_record`
call: the result of the first apply, the config ids the drift check reads,
the result of the retried apply, and the info buffers the two
`processWithInfo` calls would fill on success. -/
structure Engine where
  firstApply : ApplyResult
  activeConfigId : String
  defaultConfigId : String
  secondApply : ApplyResult
  firstInfo : String
  secondInfo : String
deriving DecidableEq, Repr

/-- Checks that the first character list starts the second one. -/
def charsStartWith : List Char → List Char → Bool
  | [], _ => true
  | _ :: _, [] => false
  | n :: ns, h :: hs => n == h && charsStartWith ns hs

/-- Checks that the first character list occurs contiguously inside the
second one; rendering of the Python `needle in hay` test on strings. -/
def charsContain (needle : List Char) : List Char → Bool
  | [] => needle.isEmpty
  | h :: hs => charsStartWith needle (h :: hs) || charsContain needle hs

/-- Translation of `is_db_connection_error` (redoer.py line 2937): the error
text contains "Database Connection Failure" or "Database Connection Lost". -/
def is_db_connection_error (errorText : String) : Bool :=
  charsContain ("Database Connection Failure").toList errorText.toList
    || charsContain ("Database Connection Lost").toList errorText.toList

/-- Translation of `InfoFilter.filter` (line 1311): the default filter is
the identity on the message. -/
def InfoFilter.filter (message : String) : String :=
  message

/-- Events of `ProcessRedoQueueThread.is_g2_default_configuration_changed`
(lines 2541-2559): read the active config id, read the default config id. -/
def configCheckEvents : List ExecEvent :=
  [ExecEvent.getActiveConfigId, ExecEvent.getDefaultConfigId]

/-- Events of `ProcessRedoQueueThread.update_active_g2_configuration`
(lines 2561-2571): read the default config id again, then
`g2_engine.reinitV2(default_config_id)`. -/
def updateConfigEvents (eng : Engine) : List ExecEvent :=
  [ExecEvent.getDefaultConfigId, ExecEvent.reinit eng.defaultConfigId]

/-- Translation of `ExecuteMixin.process_redo_record` (lines 2024-2060).
Returns the outcome together with the trace of engine and queue actions.
The `G2ModuleNotInitialized` handler calls `exit_error(707, ...)` without
touching the failure queue; a generic exception is classified by
`is_db_connection_error`, then by the config-drift check; the retried
`g2_engine.process` call sits inside the `except` handler, so a failure of
the retry propagates out of the method uncaught. -/
def ExecuteMixin.process_redo_record (eng : Engine) (redo_record : String) :
    ExecOutcome × List ExecEvent :=
  match eng.firstApply with
  | ApplyResult.ok =>
      (ExecOutcome.returned true, [ExecEvent.applyCall redo_record, ExecEvent.incrProcessed])
  | ApplyResult.notInit =>
      (ExecOutcome.fatalExit 1, [ExecEvent.applyCall redo_record])
  | ApplyResult.err msg =>
      if is_db_connection_error msg then
        (ExecOutcome.returned false, [ExecEvent.applyCall redo_record])
      else
        if eng.activeConfigId ≠ eng.defaultConfigId then
          let retryEvents := ExecEvent.applyCall redo_record :: configCheckEvents
            ++ updateConfigEvents eng ++ [ExecEvent.applyCall redo_record]
          match eng.secondApply with
          | ApplyResult.ok =>
              (ExecOutcome.returned true, retryEvents ++ [ExecEvent.incrProcessed])
          | e => (ExecOutcome.uncaught e, retryEvents)
        else
          (ExecOutcome.fatalExit 1, ExecEvent.applyCall redo_record :: configCheckEvents)

/-- Events emitted after a successful `processWithInfo`: the decoded buffer
is passed through `filter_info_message` and sent to the info queue when the
filtered string is non-empty (lines 2114-2123). -/
def infoEvents (info : String) : List ExecEvent :=
  if InfoFilter.filter info = ("") then [] else [ExecEvent.sendToInfoQueue (InfoFilter.filter info)]

/-- Translation of `ExecuteWithInfoMixin.process_redo_record`
(lines 2073-2125).  Unlike the plain mixin, both fatal branches send the
record to the failure queue before `exit_error`; on success the filtered
info buffer is forwarded to the info queue.  The retried `processWithInfo`
call is inside the `except` handler, so a failing retry propagates
uncaught. -/
def ExecuteWithInfoMixin.process_redo_record (eng : Engine) (redo_record : String) :
    ExecOutcome × List ExecEvent :=
  match eng.firstApply with
  | ApplyResult.ok =>
      (ExecOutcome.returned true,
        [ExecEvent.applyCall redo_record, ExecEvent.incrProcessed] ++ infoEvents eng.firstInfo)
  | ApplyResult.notInit =>
      (ExecOutcome.fatalExit 1,
        [ExecEvent.applyCall redo_record, ExecEvent.sendToFailureQueue redo_record])
  | ApplyResult.err msg =>
      if is_db_connection_error msg then
        (ExecOutcome.returned false, [ExecEvent.applyCall redo_record])
      else
        if eng.activeConfigId ≠ eng.defaultConfigId then
          let retryEvents := ExecEvent.applyCall redo_record :: configCheckEvents
            ++ updateConfigEvents eng ++ [ExecEvent.applyCall redo_record]
          match eng.secondApply with
          | ApplyResult.ok =>
              (ExecOutcome.returned true,
                retryEvents ++ [ExecEvent.incrProcessed] ++ infoEvents eng.secondInfo)
          | e => (ExecOutcome.uncaught e, retryEvents)
        else
          (ExecOutcome.fatalExit 1,
            ExecEvent.applyCall redo_record :: configCheckEvents
              ++ [ExecEvent.sendToFailureQueue redo_record])

/-- Number of engine apply calls in a trace. -/
def applyCalls (evs : List ExecEvent) : Nat :=
  (evs.filter fun e =>
    match e with
    | ExecEvent.applyCall _ => true
    | _ => false).length

/-- Number of sends to the failure queue in a trace. -/
def failureSends (evs : List ExecEvent) : Nat :=
  (evs.filter fun e =>
    match e with
    | ExecEvent.sendToFailureQueue _ => true
    | _ => false).length

/-- Observable actions of the worker loop `ProcessRedoQueueThread.run`
(lines 2573-2605): the governor call, the execute call with its boolean
result, and `acknowledge_read_message(tag)`. -/
inductive RunEvent where
  | govern : RunEvent
  | process : String → Bool → RunEvent
  | acknowledge : Nat → RunEvent
deriving DecidableEq, Repr

/-- Translation of the body of `ProcessRedoQueueThread.run`
(lines 2582-2601) over a finite prefix of the input generator.  For each
`(redo_record, acknowledge_tag)` pair the loop calls `self.govern()`, then
`self.process_redo_record(redo_record)`, and only when that returned true
attempts `self.acknowledge_read_message(acknowledge_tag)`; `hasAck` records
whether the composed class defines `acknowledge_read_message` (when it does
not, the `AttributeError` is swallowed by the `except` clause and no
acknowledgement happens). -/
def ProcessRedoQueueThread.run (hasAck : Bool) (exec : String → Bool) :
    List (String × Nat) → List RunEvent
  | [] => []
  | (r, t) :: rest =>
      RunEvent.govern :: RunEvent.process r (exec r) ::
        ((if exec r then (if hasAck then [RunEvent.acknowledge t] else []) else [])
          ++ ProcessRedoQueueThread.run hasAck exec rest)

/-- Number of acknowledgements of tag `t` in a worker trace. -/
def ackCount (t : Nat) (evs : List RunEvent) : Nat :=
  (evs.filter fun e =>
    match e with
    | RunEvent.acknowledge t2 => t2 == t
    | _ => false).length

/-- Checks that every execute call in a worker trace is immediately preceded
by a governor call. -/
def governBeforeProcess : List RunEvent → Bool
  | [] => true
  | RunEvent.govern :: RunEvent.process _ _ :: rest => governBeforeProcess rest
  | RunEvent.govern :: rest => governBeforeProcess rest
  | RunEvent.process _ _ :: _ => false
  | RunEvent.acknowledge _ :: rest => governBeforeProcess rest

/-- One response of `g2_engine.getRedoRecord` as seen by the pull loop:
a zero status with the buffer holding `record` (`""` when the backlog is
empty), a non-zero status, the `G2ModuleNotInitialized` exception, or a
generic exception carrying `err.args[0]`. -/
inductive PullResult where
  | ok : String → PullResult
  | fail : Nat → PullResult
  | notInit : PullResult
  | exc : String → PullResult
deriving DecidableEq, Repr

/-- Observable actions of `QueueRedoRecordsThread.redo_records`: the
transient-retry sleep (`redo_retry_sleep_time_in_seconds`), the empty-backlog
sleep (`redo_sleep_time_in_seconds`), a fatal `exit_error` with its message
number, and a yielded record. -/
inductive PullEvent where
  | sleepRetry : PullEvent
  | sleepEmpty : PullEvent
  | fatalExit : Nat → PullEvent
  | yielded : String → PullEvent
deriving DecidableEq, Repr

/-- Translation of the generator `QueueRedoRecordsThread.redo_records`
(lines 2621-2675), run against a finite prefix of engine responses, with
`rc` the current `retry_count` and `limit` the configured
`redo_retry_limit`.  A db-transient exception below the limit sleeps and
retries with the counter incremented; any other exception exits with error
703, `G2ModuleNotInitialized` with 702, and a non-zero status with 701.
After every zero-status pull the code sets `retry_count = 0` (line 2660)
before testing whether the record is empty, so both the empty branch and
the yield branch continue with a cleared counter. -/
def QueueRedoRecordsThread.redo_records (limit : Nat) :
    Nat → List PullResult → List PullEvent
  | _, [] => []
  | _, PullResult.notInit :: _ => [PullEvent.fatalExit 702]
  | rc, PullResult.exc msg :: rest =>
      if is_db_connection_error msg ∧ rc < limit then
        PullEvent.sleepRetry :: QueueRedoRecordsThread.redo_records limit (rc + 1) rest
      else
        [PullEvent.fatalExit 703]
  | _, PullResult.fail _ :: _ => [PullEvent.fatalExit 701]
  | _, PullResult.ok r :: rest =>
      if r = ("") then
        PullEvent.sleepEmpty :: QueueRedoRecordsThread.redo_records limit 0 rest
      else
        PullEvent.yielded r :: QueueRedoRecordsThread.redo_records limit 0 rest

/-- Rendering of the claim's words about the pull loop (spec section 4.6,
"else: reset attempt counter; yield (record, none)"): identical to
`QueueRedoRecordsThread.redo_records` except that the attempt counter is
reset only in the non-empty branch, so the empty branch keeps the
accumulated counter.  Declared only to be compared against the translation
of the source. -/
def pullLoopSpecReset (limit : Nat) :
    Nat → List PullResult → List PullEvent
  | _, [] => []
  | _, PullResult.notInit :: _ => [PullEvent.fatalExit 702]
  | rc, PullResult.exc msg :: rest =>
      if is_db_connection_error msg ∧ rc < limit then
        PullEvent.sleepRetry :: pullLoopSpecReset limit (rc + 1) rest
      else
        [PullEvent.fatalExit 703]
  | _, PullResult.fail _ :: _ => [PullEvent.fatalExit 701]
  | rc, PullResult.ok r :: rest =>
      if r = ("") then
        PullEvent.sleepEmpty :: pullLoopSpecReset limit rc rest
      else
        PullEvent.yielded r :: pullLoopSpecReset limit 0 rest

/-- One result of `consumer.poll(1.0)` in `InputKafkaMixin.redo_records`
(lines 1833-1862): a timeout (`None`), an error message with the
partition-EOF code, any other error message, or a message whose stripped
value is `s`. -/
inductive KafkaPoll where
  | timeout : KafkaPoll
  | errPartitionEof : KafkaPoll
  | errOther : KafkaPoll
  | value : String → KafkaPoll
deriving DecidableEq, Repr

/-- Observable actions of the composition of `InputKafkaMixin.redo_records`
with the worker loop. -/
inductive KafkaEvent where
  | govern : KafkaEvent
  | process : String → Bool → KafkaEvent
  | commit : KafkaEvent
deriving DecidableEq, Repr

/-- Translation of `ProcessRedoQueueThread.run` driving the generator
`InputKafkaMixin.redo_records` over a finite prefix of poll results.
Timeouts, errors and empty values are skipped by the generator.  Each
yielded message is governed and processed; the tag is `None` and the Kafka
compositions define no `acknowledge_read_message`, so the `AttributeError`
is swallowed and no acknowledgement happens.  When the loop then requests
the next record, the generator resumes at line 1866 and executes
`self.consumer.commit()` unconditionally, before polling again — so the
commit for a message is emitted regardless of the boolean the execute
returned for it. -/
def kafkaWorkerRun (exec : String → Bool) : List KafkaPoll → List KafkaEvent
  | [] => []
  | KafkaPoll.value s :: rest =>
      if s = ("") then kafkaWorkerRun exec rest
      else
        KafkaEvent.govern :: KafkaEvent.process s (exec s) :: KafkaEvent.commit ::
          kafkaWorkerRun exec rest
  | _ :: rest => kafkaWorkerRun exec rest

/-- Default of the `queue_maxsize` configuration key (lines 191-195). -/
def queue_maxsize_default : Nat := 10

/-- Capacity of the internal queue that `redo_processor` actually creates:
line 3097 reads `queue_maxsize` from the configuration, but line 3101
creates the queue with `queue.Queue()`, passing no `maxsize`, so the
Python default `maxsize=0` (unbounded) is used whatever the configured
value is. -/
def redo_processor_internal_queue_maxsize (config_queue_maxsize : Nat) : Nat :=
  0

/-- Blocking condition of `Queue.put` in the Python standard library, used
by `QueueInternalMixin.send_to_redo_queue` (line 2506): a put blocks
exactly when the queue was created with `maxsize > 0` and currently holds
at least `maxsize` items. -/
def queuePutBlocks (maxsize qsize : Nat) : Bool :=
  decide (0 < maxsize) && decide (maxsize ≤ qsize)

/-- Default of the `rabbitmq_delivery_mode` configuration key
(lines 196-200). -/
def rabbitmq_delivery_mode_default : Nat := 1

/-- Delivery mode stored by `Rabbitmq.__init__` (lines 1335, 1356): the
keyword parameter defaults to 2, and the stored value is whatever the
caller passed, or 2 when the caller omitted the argument. -/
def Rabbitmq.delivery_mode (passed : Option Nat) : Nat :=
  passed.getD 2

/-- Delivery mode used by `Rabbitmq.send` in `basic_publish` (line 1488):
exactly the instance's stored `delivery_mode`. -/
def Rabbitmq.send_delivery_mode (stored : Nat) : Nat :=
  stored

/-- Delivery-mode argument at the four `Rabbitmq(...)` construction sites
(lines 1530, 2194, 2405, 2419): none of them passes `delivery_mode`. -/
def rabbitmq_construction_delivery_mode_arg : Option Nat :=
  none

/-- A Service Bus queue sender, identified by the connection string and
queue name it was built from (`get_queue_sender`, lines 2290-2293). -/
structure Sender where
  connection_string : String
  queue_name : String
deriving DecidableEq, Repr

/-- Attribute store of an `OutputAzureQueueMixin` instance: the only sender
attributes its methods mention.  `none` models an attribute that was never
assigned (reading it raises `AttributeError`). -/
structure AzureOutputState where
  failure_sender : Option Sender
  finfo_sender : Option Sender
deriving DecidableEq, Repr

/-- Translation of `OutputAzureQueueMixin.__init__` (lines 2283-2293):
line 2291 assigns `self.failure_sender` the sender for the failure queue,
and line 2293 assigns `self.failure_sender` again — this time the sender
built from the info connection string and info queue name — overwriting
the first assignment.  No other sender attribute is ever assigned. -/
def OutputAzureQueueMixin.init (failure_cs failure_q info_cs info_q : String) :
    AzureOutputState :=
  let afterLine2291 : AzureOutputState :=
    AzureOutputState.mk (some (Sender.mk failure_cs failure_q)) none
  let afterLine2293 : AzureOutputState :=
    AzureOutputState.mk (some (Sender.mk info_cs info_q)) afterLine2291.finfo_sender
  afterLine2293

/-- Translation of `OutputAzureQueueMixin.send_to_info_queue`
(lines 2301-2305): it reads `self.finfo_sender`; if that attribute is
missing an `AttributeError` is raised, otherwise the message goes out
through that sender. -/
def OutputAzureQueueMixin.send_to_info_queue (st : AzureOutputState)
    (message : String) : Except String Sender :=
  match st.finfo_sender with
  | none => Except.error ("AttributeError")
  | some s => Except.ok s

/-- Translation of `OutputAzureQueueMixin.send_to_failure_queue`
(lines 2295-2299): it publishes through `self.failure_sender`. -/
def OutputAzureQueueMixin.send_to_failure_queue (st : AzureOutputState)
    (message : String) : Except String Sender :=
  match st.failure_sender with
  | none => Except.error ("AttributeError")
  | some s => Except.ok s

/-!  Theorems settling the claims. -/

/-!  Helper lemmas about the trace-counting functions. -/

theorem ackCount_append (t : Nat) (l1 l2 : List RunEvent) :
    ackCount t (l1 ++ l2) = ackCount t l1 + ackCount t l2 := by
  simp [ackCount, List.filter_append]

theorem ackCount_govern (t : Nat) (l : List RunEvent) :
    ackCount t (RunEvent.govern :: l) = ackCount t l := by
  simp [ackCount]

theorem ackCount_process (t : Nat) (r : String) (b : Bool) (l : List RunEvent) :
    ackCount t (RunEvent.process r b :: l) = ackCount t l := by
  simp [ackCount]

theorem ackCount_acknowledge (t t2 : Nat) (l : List RunEvent) :
    ackCount t (RunEvent.acknowledge t2 :: l)
      = (if t2 == t then 1 else 0) + ackCount t l := by
  by_cases h : (t2 == t) = true
  · simp [ackCount, List.filter_cons, h, Nat.add_comm]
  · have h2 : (t2 == t) = false := by simpa using h
    simp [ackCount, List.filter_cons, h2]

theorem ackCount_run_of_not_mem (hasAck : Bool) (exec : String → Bool) (t : Nat)
    (pairs : List (String × Nat)) (h : t ∉ pairs.map Prod.snd) :
    ackCount t (ProcessRedoQueueThread.run hasAck exec pairs) = 0 := by
  induction pairs with
  | nil => rfl
  | cons p rest ih =>
      obtain ⟨r, tg⟩ := p
      rw [List.map_cons, List.mem_cons] at h
      push_neg at h
      obtain ⟨hne, hmem⟩ := h
      have htail := ih hmem
      have hbeq : (tg == t) = false := by
        simp only [beq_eq_false_iff_ne]
        exact fun hc => hne (hc ▸ rfl)
      cases hasAck <;> cases hex : exec r <;>
        simp [ProcessRedoQueueThread.run, hex, ackCount_govern, ackCount_process,
          ackCount_acknowledge, ackCount_append, hbeq, htail]

theorem applyCalls_append (l1 l2 : List ExecEvent) :
    applyCalls (l1 ++ l2) = applyCalls l1 + applyCalls l2 := by
  simp [applyCalls, List.filter_append]

theorem applyCalls_nil : applyCalls [] = 0 := rfl

theorem applyCalls_cons_apply (s : String) (l : List ExecEvent) :
    applyCalls (ExecEvent.applyCall s :: l) = applyCalls l + 1 := by
  simp [applyCalls, List.filter_cons, Nat.add_comm]

theorem applyCalls_cons_getActive (l : List ExecEvent) :
    applyCalls (ExecEvent.getActiveConfigId :: l) = applyCalls l := by
  simp [applyCalls, List.filter_cons]

theorem applyCalls_cons_getDefault (l : List ExecEvent) :
    applyCalls (ExecEvent.getDefaultConfigId :: l) = applyCalls l := by
  simp [applyCalls, List.filter_cons]

theorem applyCalls_cons_reinit (s : String) (l : List ExecEvent) :
    applyCalls (ExecEvent.reinit s :: l) = applyCalls l := by
  simp [applyCalls, List.filter_cons]

theorem applyCalls_cons_sendFailure (s : String) (l : List ExecEvent) :
    applyCalls (ExecEvent.sendToFailureQueue s :: l) = applyCalls l := by
  simp [applyCalls, List.filter_cons]

theorem applyCalls_cons_sendInfo (s : String) (l : List ExecEvent) :
    applyCalls (ExecEvent.sendToInfoQueue s :: l) = applyCalls l := by
  simp [applyCalls, List.filter_cons]

theorem applyCalls_cons_incr (l : List ExecEvent) :
    applyCalls (ExecEvent.incrProcessed :: l) = applyCalls l := by
  simp [applyCalls, List.filter_cons]

theorem applyCalls_infoEvents (s : String) :
    applyCalls (infoEvents s) = 0 := by
  by_cases h : InfoFilter.filter s = ("")
  · simp [infoEvents, h, applyCalls]
  · simp [infoEvents, h, applyCalls]

theorem failureSends_infoEvents (s : String) :
    failureSends (infoEvents s) = 0 := by
  by_cases h : InfoFilter.filter s = ("")
  · simp [infoEvents, h, failureSends]
  · simp [infoEvents, h, failureSends]

/-- C1: the claim says `redo_processor` creates the internal redo queue
with capacity `queue_maxsize` (default 10) and that a full queue blocks the
producer.  The code reads `queue_maxsize` (line 3097) but creates the queue
with `queue.Queue()` (line 3101), i.e. with the unbounded Python default:
the created queue's maxsize is 0 whatever is configured, and a put on it
never blocks, even with a million queued records, while a queue actually
created with the configured default would block at 10. -/
theorem c1_internal_queue_unbounded :
    queue_maxsize_default = 10
    ∧ redo_processor_internal_queue_maxsize queue_maxsize_default = 0
    ∧ queuePutBlocks (redo_processor_internal_queue_maxsize queue_maxsize_default) 1000000 = false
    ∧ queuePutBlocks queue_maxsize_default queue_maxsize_default = true := by
  decide

/-- C2: the claim says the Kafka consumer offset is committed only after
the Execute stage returned success, and never for a record whose execute
returned `processed=false`.  On a topic delivering one record "R1" whose
execute returns `false`, the worker loop still resumes the generator, and
the resumption runs `self.consumer.commit()` (line 1866) before polling
again: the trace commits the offset of a record that failed. -/
theorem c2_kafka_commit_despite_failure :
    kafkaWorkerRun (fun _ => false) [KafkaPoll.value ("R1")]
      = [KafkaEvent.govern, KafkaEvent.process ("R1") false, KafkaEvent.commit] := by
  decide

/-- C3 counterexample: the claim says that on engine-not-initialized both
Execute variants send the record to the failure output exactly once before
exiting.  For the plain `ExecuteMixin` (line 2043) the handler calls
`exit_error(707, ...)` directly: the process exits with code 1 but the
failure queue is never touched. -/
theorem c3_counterexample_plain_no_failure_send :
    (ExecuteMixin.process_redo_record
        (Engine.mk ApplyResult.notInit ("A") ("A") ApplyResult.ok ("") ("")) ("R1")).1
      = ExecOutcome.fatalExit 1
    ∧ failureSends (ExecuteMixin.process_redo_record
        (Engine.mk ApplyResult.notInit ("A") ("A") ApplyResult.ok ("") ("")) ("R1")).2 = 0 := by
  decide

/-- C3 amended: when the engine's apply raises engine-not-initialized, the
apply-with-info Execute stage sends the record to the failure output
exactly once and exits fatally with code 1, while the apply-plain Execute
stage exits fatally with code 1 without sending anything to the failure
output. -/
theorem c3_amended_not_initialized_handling (eng : Engine) (r : String)
    (h : eng.firstApply = ApplyResult.notInit) :
    (ExecuteMixin.process_redo_record eng r).1 = ExecOutcome.fatalExit 1
    ∧ failureSends (ExecuteMixin.process_redo_record eng r).2 = 0
    ∧ (ExecuteWithInfoMixin.process_redo_record eng r).1 = ExecOutcome.fatalExit 1
    ∧ failureSends (ExecuteWithInfoMixin.process_redo_record eng r).2 = 1 := by
  obtain ⟨fa, a, d, sa, i1, i2⟩ := eng
  cases h
  exact ⟨rfl, rfl, rfl, rfl⟩

/-- C3 amended, witnessed at a concrete engine and record. -/
theorem c3_amended_witness :
    (ExecuteMixin.process_redo_record
        (Engine.mk ApplyResult.notInit ("B") ("B") ApplyResult.ok ("") ("")) ("R2")).1
      = ExecOutcome.fatalExit 1
    ∧ failureSends (ExecuteMixin.process_redo_record
        (Engine.mk ApplyResult.notInit ("B") ("B") ApplyResult.ok ("") ("")) ("R2")).2 = 0
    ∧ (ExecuteWithInfoMixin.process_redo_record
        (Engine.mk ApplyResult.notInit ("B") ("B") ApplyResult.ok ("") ("")) ("R2")).1
      = ExecOutcome.fatalExit 1
    ∧ failureSends (ExecuteWithInfoMixin.process_redo_record
        (Engine.mk ApplyResult.notInit ("B") ("B") ApplyResult.ok ("") ("")) ("R2")).2 = 1 :=
  c3_amended_not_initialized_handling
    (Engine.mk ApplyResult.notInit ("B") ("B") ApplyResult.ok ("") ("")) ("R2") rfl

/-- C4 counterexample: the claim says that when the post-reinit retry of
apply fails, the Execute stage sends the record to the failure output and
exits fatally.  With a first apply failing with "boom", config drift
("A" vs "B") and a retry failing with "late", the retried call (line 2054,
inside the `except` handler) raises out of `process_redo_record` uncaught:
the outcome is neither a failure-queue send nor a process exit. -/
theorem c4_counterexample_retry_failure_uncaught :
    (ExecuteMixin.process_redo_record
        (Engine.mk (ApplyResult.err ("boom")) ("A") ("B") (ApplyResult.err ("late")) ("") (""))
        ("R1")).1
      = ExecOutcome.uncaught (ApplyResult.err ("late"))
    ∧ failureSends (ExecuteMixin.process_redo_record
        (Engine.mk (ApplyResult.err ("boom")) ("A") ("B") (ApplyResult.err ("late")) ("") (""))
        ("R1")).2 = 0
    ∧ (ExecuteWithInfoMixin.process_redo_record
        (Engine.mk (ApplyResult.err ("boom")) ("A") ("B") (ApplyResult.err ("late")) ("") (""))
        ("R1")).1
      = ExecOutcome.uncaught (ApplyResult.err ("late"))
    ∧ failureSends (ExecuteWithInfoMixin.process_redo_record
        (Engine.mk (ApplyResult.err ("boom")) ("A") ("B") (ApplyResult.err ("late")) ("") (""))
        ("R1")).2 = 0 := by
  decide

/-- C4 amended: if the single retry of apply performed after a config-drift
reinit fails for any reason, the exception propagates uncaught out of
`process_redo_record` in both Execute variants: the record is not sent to
the failure output and the process does not exit; only the worker thread
terminates. -/
theorem c4_amended_retry_failure_propagates (eng : Engine) (r msg : String)
    (h1 : eng.firstApply = ApplyResult.err msg)
    (h2 : is_db_connection_error msg = false)
    (h3 : eng.activeConfigId ≠ eng.defaultConfigId)
    (h4 : eng.secondApply ≠ ApplyResult.ok) :
    (ExecuteMixin.process_redo_record eng r).1 = ExecOutcome.uncaught eng.secondApply
    ∧ failureSends (ExecuteMixin.process_redo_record eng r).2 = 0
    ∧ (ExecuteWithInfoMixin.process_redo_record eng r).1 = ExecOutcome.uncaught eng.secondApply
    ∧ failureSends (ExecuteWithInfoMixin.process_redo_record eng r).2 = 0 := by
  obtain ⟨fa, a, d, sa, i1, i2⟩ := eng
  simp only at h1 h3 h4 ⊢
  subst h1
  cases sa with
  | ok => exact absurd rfl h4
  | notInit =>
      simp [ExecuteMixin.process_redo_record, ExecuteWithInfoMixin.process_redo_record,
        h2, h3, failureSends, configCheckEvents, updateConfigEvents]
  | err m2 =>
      simp [ExecuteMixin.process_redo_record, ExecuteWithInfoMixin.process_redo_record,
        h2, h3, failureSends, configCheckEvents, updateConfigEvents]

/-- C4 amended, witnessed at a concrete engine and record. -/
theorem c4_amended_witness :
    (ExecuteMixin.process_redo_record
        (Engine.mk (ApplyResult.err ("boom")) ("A") ("B") ApplyResult.notInit ("") (""))
        ("R3")).1
      = ExecOutcome.uncaught ApplyResult.notInit
    ∧ failureSends (ExecuteMixin.process_redo_record
        (Engine.mk (ApplyResult.err ("boom")) ("A") ("B") ApplyResult.notInit ("") (""))
        ("R3")).2 = 0
    ∧ (ExecuteWithInfoMixin.process_redo_record
        (Engine.mk (ApplyResult.err ("boom")) ("A") ("B") ApplyResult.notInit ("") (""))
        ("R3")).1
      = ExecOutcome.uncaught ApplyResult.notInit
    ∧ failureSends (ExecuteWithInfoMixin.process_redo_record
        (Engine.mk (ApplyResult.err ("boom")) ("A") ("B") ApplyResult.notInit ("") (""))
        ("R3")).2 = 0 :=
  c4_amended_retry_failure_propagates
    (Engine.mk (ApplyResult.err ("boom")) ("A") ("B") ApplyResult.notInit ("") (""))
    ("R3") ("boom") rfl (by decide) (by decide) (by decide)

/-- C9: the claim says every AMQP publish uses the delivery mode from the
`rabbitmq_delivery_mode` configuration key, whose default is 1.  The key
is declared with default 1 but never read: no `Rabbitmq(...)` construction
site passes `delivery_mode`, so every instance stores the constructor
default 2 and `basic_publish` uses 2. -/
theorem c9_delivery_mode_hardcoded :
    rabbitmq_delivery_mode_default = 1
    ∧ rabbitmq_construction_delivery_mode_arg = none
    ∧ Rabbitmq.send_delivery_mode
        (Rabbitmq.delivery_mode rabbitmq_construction_delivery_mode_arg) = 2 := by
  decide

/-- C10: in `OutputAzureQueueMixin`, `send_to_info_queue` reads the never
assigned attribute `finfo_sender` and so raises `AttributeError` on every
call, while `send_to_failure_queue` publishes through the sender built from
the info connection string and info queue name, because the assignment on
line 2293 overwrote the failure sender stored on line 2291. -/
theorem c10_azure_output_senders (failure_cs failure_q info_cs info_q message : String) :
    OutputAzureQueueMixin.send_to_info_queue
        (OutputAzureQueueMixin.init failure_cs failure_q info_cs info_q) message
      = Except.error ("AttributeError")
    ∧ OutputAzureQueueMixin.send_to_failure_queue
        (OutputAzureQueueMixin.init failure_cs failure_q info_cs info_q) message
      = Except.ok (Sender.mk info_cs info_q) :=
  ⟨rfl, rfl⟩

/-- C7 counterexample: the claim places the reset of the transient-attempt
counter in the non-empty branch only.  With `redo_retry_limit = 1` and the
engine answering transient error, empty record, transient error, transient
error, the code (which clears the counter on line 2660 after every
zero-status pull, so also after the empty one) sleeps and retries a second
time before the final fatal exit, while a loop resetting only on yield
would already have exhausted the limit and exit fatally one step
earlier. -/
theorem c7_counterexample_reset_on_empty_pull :
    QueueRedoRecordsThread.redo_records 1 0
        [PullResult.exc ("Database Connection Lost"), PullResult.ok (""),
          PullResult.exc ("Database Connection Lost"),
          PullResult.exc ("Database Connection Lost")]
      = [PullEvent.sleepRetry, PullEvent.sleepEmpty, PullEvent.sleepRetry,
          PullEvent.fatalExit 703]
    ∧ pullLoopSpecReset 1 0
        [PullResult.exc ("Database Connection Lost"), PullResult.ok (""),
          PullResult.exc ("Database Connection Lost"),
          PullResult.exc ("Database Connection Lost")]
      = [PullEvent.sleepRetry, PullEvent.sleepEmpty, PullEvent.fatalExit 703] := by
  decide

/-- C7 amended: the pull loop sleeps `redo_retry_sleep_time` and retries on
a db-transient error below `redo_retry_limit`, exits fatally at the limit
or on a non-transient error, sleeps `redo_sleep_time` and restarts without
yielding on an empty record, and yields otherwise — but the attempt
counter is cleared after every successful pull, before the empty check, so
the continuation after any zero-status pull (empty included) is
independent of the accumulated attempt count. -/
theorem c7_amended_pull_loop_behaviour (limit rc₁ rc₂ : Nat) (msg r : String)
    (rest : List PullResult) :
    QueueRedoRecordsThread.redo_records limit rc₁ (PullResult.ok r :: rest)
      = QueueRedoRecordsThread.redo_records limit rc₂ (PullResult.ok r :: rest)
    ∧ (is_db_connection_error msg = true → rc₁ < limit →
        QueueRedoRecordsThread.redo_records limit rc₁ (PullResult.exc msg :: rest)
          = PullEvent.sleepRetry
              :: QueueRedoRecordsThread.redo_records limit (rc₁ + 1) rest)
    ∧ (is_db_connection_error msg = false ∨ limit ≤ rc₁ →
        QueueRedoRecordsThread.redo_records limit rc₁ (PullResult.exc msg :: rest)
          = [PullEvent.fatalExit 703])
    ∧ (r = ("") →
        QueueRedoRecordsThread.redo_records limit rc₁ (PullResult.ok r :: rest)
          = PullEvent.sleepEmpty :: QueueRedoRecordsThread.redo_records limit 0 rest)
    ∧ (r ≠ ("") →
        QueueRedoRecordsThread.redo_records limit rc₁ (PullResult.ok r :: rest)
          = PullEvent.yielded r :: QueueRedoRecordsThread.redo_records limit 0 rest) := by
  refine ⟨?_, ?_, ?_, ?_, ?_⟩
  · by_cases hr : r = ("")
    · simp [QueueRedoRecordsThread.redo_records, hr]
    · simp [QueueRedoRecordsThread.redo_records, hr]
  · intro hdb hlt
    simp [QueueRedoRecordsThread.redo_records, hdb, hlt]
  · intro h
    rcases h with h | h
    · simp [QueueRedoRecordsThread.redo_records, h]
    · simp [QueueRedoRecordsThread.redo_records, Nat.not_lt.mpr h]
  · intro hr
    simp [QueueRedoRecordsThread.redo_records, hr]
  · intro hr
    simp [QueueRedoRecordsThread.redo_records, hr]

/-- C7 amended, witnessed at concrete values: a transient error below the
limit sleeps and retries, and the continuation after an empty pull does
not depend on the prior attempt count. -/
theorem c7_amended_witness :
    QueueRedoRecordsThread.redo_records 5 3 [PullResult.ok ("")]
      = QueueRedoRecordsThread.redo_records 5 0 [PullResult.ok ("")]
    ∧ QueueRedoRecordsThread.redo_records 5 3
        [PullResult.exc ("Database Connection Failure")]
      = PullEvent.sleepRetry :: QueueRedoRecordsThread.redo_records 5 4 [] :=
  ⟨(c7_amended_pull_loop_behaviour 5 3 0 ("x") ("") []).1,
    (c7_amended_pull_loop_behaviour 5 3 0 ("Database Connection Failure") ("") []).2.1
      (by decide) (by decide)⟩

/-- C5: in the worker loop of `ProcessRedoQueueThread.run`, every execute
call is immediately preceded by a `Governor.govern()` call, and — for a
composition whose input defines `acknowledge_read_message` and whose tags
are pairwise distinct — the tag of each `(record, tag)` pair is
acknowledged exactly once when `process_redo_record` returned true and not
at all when it returned false. -/
theorem c5_worker_govern_ack_iff_processed (exec : String → Bool)
    (pairs : List (String × Nat)) (hnodup : (pairs.map Prod.snd).Nodup) :
    governBeforeProcess (ProcessRedoQueueThread.run true exec pairs) = true
    ∧ ∀ p ∈ pairs, ackCount p.2 (ProcessRedoQueueThread.run true exec pairs)
        = if exec p.1 then 1 else 0 := by
  induction pairs with
  | nil =>
      refine ⟨rfl, ?_⟩
      intro p hp
      cases hp
  | cons p rest ih =>
      obtain ⟨r, tg⟩ := p
      rw [List.map_cons, List.nodup_cons] at hnodup
      obtain ⟨htg, hrest⟩ := hnodup
      obtain ⟨ihg, ihack⟩ := ih hrest
      constructor
      · cases hex : exec r <;>
          simpa [ProcessRedoQueueThread.run, hex, governBeforeProcess] using ihg
      · intro q hq
        rcases List.mem_cons.mp hq with hq | hq
        · subst hq
          have hzero := ackCount_run_of_not_mem true exec tg rest htg
          cases hex : exec r <;>
            simp [ProcessRedoQueueThread.run, hex, ackCount_govern, ackCount_process,
              ackCount_acknowledge, ackCount_append, hzero]
        · have hq2 : q.2 ∈ rest.map Prod.snd := List.mem_map_of_mem Prod.snd hq
          have hbeq : (tg == q.2) = false := by
            simp only [beq_eq_false_iff_ne]
            exact fun hc => htg (hc ▸ hq2)
          have htail := ihack q hq
          cases hex : exec r <;>
            simp [ProcessRedoQueueThread.run, hex, ackCount_govern, ackCount_process,
              ackCount_acknowledge, ackCount_append, hbeq, htail]

/-- C5, witnessed at a concrete execute function and pair list. -/
theorem c5_worker_witness :
    governBeforeProcess
        (ProcessRedoQueueThread.run true (fun r => r == ("R1"))
          [(("R1"), 5), (("R2"), 7)]) = true
    ∧ ∀ p ∈ [((("R1") : String), 5), (("R2"), 7)],
        ackCount p.2 (ProcessRedoQueueThread.run true (fun r => r == ("R1"))
            [(("R1"), 5), (("R2"), 7)])
          = if (fun r => r == ("R1")) p.1 then 1 else 0 :=
  c5_worker_govern_ack_iff_processed (fun r => r == ("R1"))
    [(("R1"), 5), (("R2"), 7)] (by decide)

/-- C6: for a single redo record, both engine-backed Execute variants call
the apply API at most twice; when two calls happen, the drift check
observed `active_config_id != default_config_id`, and the trace shows the
`reinitV2(default_config_id)` immediately before the second apply call. -/
theorem c6_apply_at_most_twice (eng : Engine) (r : String) :
    applyCalls (ExecuteMixin.process_redo_record eng r).2 ≤ 2
    ∧ applyCalls (ExecuteWithInfoMixin.process_redo_record eng r).2 ≤ 2
    ∧ (applyCalls (ExecuteMixin.process_redo_record eng r).2 = 2 →
        eng.activeConfigId ≠ eng.defaultConfigId
        ∧ ∃ pre post, (ExecuteMixin.process_redo_record eng r).2
            = pre ++ ExecEvent.reinit eng.defaultConfigId :: ExecEvent.applyCall r :: post)
    ∧ (applyCalls (ExecuteWithInfoMixin.process_redo_record eng r).2 = 2 →
        eng.activeConfigId ≠ eng.defaultConfigId
        ∧ ∃ pre post, (ExecuteWithInfoMixin.process_redo_record eng r).2
            = pre ++ ExecEvent.reinit eng.defaultConfigId :: ExecEvent.applyCall r :: post) := by
  obtain ⟨fa, a, d, sa, i1, i2⟩ := eng
  cases fa with
  | ok =>
      refine ⟨?_, ?_, ?_, ?_⟩ <;>
        simp [ExecuteMixin.process_redo_record, ExecuteWithInfoMixin.process_redo_record,
          applyCalls_append, applyCalls_infoEvents, applyCalls_nil, applyCalls_cons_apply,
          applyCalls_cons_incr]
  | notInit =>
      refine ⟨?_, ?_, ?_, ?_⟩ <;>
        simp [ExecuteMixin.process_redo_record, ExecuteWithInfoMixin.process_redo_record,
          applyCalls_nil, applyCalls_cons_apply, applyCalls_cons_sendFailure]
  | err msg =>
      by_cases hdb : is_db_connection_error msg
      · refine ⟨?_, ?_, ?_, ?_⟩ <;>
          simp [ExecuteMixin.process_redo_record, ExecuteWithInfoMixin.process_redo_record,
            hdb, applyCalls_nil, applyCalls_cons_apply]
      · by_cases hcfg : a ≠ d
        · cases sa with
          | ok =>
              refine ⟨?_, ?_, fun _ => ⟨hcfg, ?_, ?_, ?_⟩, fun _ => ⟨hcfg, ?_, ?_, ?_⟩⟩
              · simp [ExecuteMixin.process_redo_record, hdb, hcfg,
                  applyCalls_append, applyCalls_nil, applyCalls_cons_apply,
                  applyCalls_cons_getActive, applyCalls_cons_getDefault,
                  applyCalls_cons_reinit, applyCalls_cons_incr,
                  configCheckEvents, updateConfigEvents]
              · simp [ExecuteWithInfoMixin.process_redo_record, hdb, hcfg,
                  applyCalls_append, applyCalls_infoEvents, applyCalls_nil,
                  applyCalls_cons_apply, applyCalls_cons_getActive,
                  applyCalls_cons_getDefault, applyCalls_cons_reinit,
                  applyCalls_cons_incr, configCheckEvents, updateConfigEvents]
              · exact [ExecEvent.applyCall r, ExecEvent.getActiveConfigId,
                  ExecEvent.getDefaultConfigId, ExecEvent.getDefaultConfigId]
              · exact [ExecEvent.incrProcessed]
              · simp [ExecuteMixin.process_redo_record, hdb, hcfg,
                  configCheckEvents, updateConfigEvents]
              · exact [ExecEvent.applyCall r, ExecEvent.getActiveConfigId,
                  ExecEvent.getDefaultConfigId, ExecEvent.getDefaultConfigId]
              · exact ExecEvent.incrProcessed :: infoEvents i2
              · simp [ExecuteWithInfoMixin.process_redo_record, hdb, hcfg,
                  configCheckEvents, updateConfigEvents]
          | notInit =>
              refine ⟨?_, ?_, fun _ => ⟨hcfg, ?_, ?_, ?_⟩, fun _ => ⟨hcfg, ?_, ?_, ?_⟩⟩
              · simp [ExecuteMixin.process_redo_record, hdb, hcfg, applyCalls_append, applyCalls_nil, applyCalls_cons_apply,
                  applyCalls_cons_getActive, applyCalls_cons_getDefault,
                  applyCalls_cons_reinit, applyCalls_cons_sendFailure,
                  applyCalls_cons_incr,
                  configCheckEvents, updateConfigEvents]
              · simp [ExecuteWithInfoMixin.process_redo_record, hdb, hcfg, applyCalls_append, applyCalls_nil, applyCalls_cons_apply,
                  applyCalls_cons_getActive, applyCalls_cons_getDefault,
                  applyCalls_cons_reinit, applyCalls_cons_sendFailure,
                  applyCalls_cons_incr,
                  configCheckEvents, updateConfigEvents]
              · exact [ExecEvent.applyCall r, ExecEvent.getActiveConfigId,
                  ExecEvent.getDefaultConfigId, ExecEvent.getDefaultConfigId]
              · exact []
              · simp [ExecuteMixin.process_redo_record, hdb, hcfg,
                  configCheckEvents, updateConfigEvents]
              · exact [ExecEvent.applyCall r, ExecEvent.getActiveConfigId,
                  ExecEvent.getDefaultConfigId, ExecEvent.getDefaultConfigId]
              · exact []
              · simp [ExecuteWithInfoMixin.process_redo_record, hdb, hcfg,
                  configCheckEvents, updateConfigEvents]
          | err m2 =>
              refine ⟨?_, ?_, fun _ => ⟨hcfg, ?_, ?_, ?_⟩, fun _ => ⟨hcfg, ?_, ?_, ?_⟩⟩
              · simp [ExecuteMixin.process_redo_record, hdb, hcfg, applyCalls_append, applyCalls_nil, applyCalls_cons_apply,
                  applyCalls_cons_getActive, applyCalls_cons_getDefault,
                  applyCalls_cons_reinit, applyCalls_cons_sendFailure,
                  applyCalls_cons_incr,
                  configCheckEvents, updateConfigEvents]
              · simp [ExecuteWithInfoMixin.process_redo_record, hdb, hcfg, applyCalls_append, applyCalls_nil, applyCalls_cons_apply,
                  applyCalls_cons_getActive, applyCalls_cons_getDefault,
                  applyCalls_cons_reinit, applyCalls_cons_sendFailure,
                  applyCalls_cons_incr,
                  configCheckEvents, updateConfigEvents]
              · exact [ExecEvent.applyCall r, ExecEvent.getActiveConfigId,
                  ExecEvent.getDefaultConfigId, ExecEvent.getDefaultConfigId]
              · exact []
              · simp [ExecuteMixin.process_redo_record, hdb, hcfg,
                  configCheckEvents, updateConfigEvents]
              · exact [ExecEvent.applyCall r, ExecEvent.getActiveConfigId,
                  ExecEvent.getDefaultConfigId, ExecEvent.getDefaultConfigId]
              · exact []
              · simp [ExecuteWithInfoMixin.process_redo_record, hdb, hcfg,
                  configCheckEvents, updateConfigEvents]
        · refine ⟨?_, ?_, ?_, ?_⟩ <;>
            simp [ExecuteMixin.process_redo_record, ExecuteWithInfoMixin.process_redo_record,
              hdb, hcfg, applyCalls_nil, applyCalls_cons_apply, applyCalls_cons_getActive,
              applyCalls_cons_getDefault, applyCalls_cons_sendFailure, configCheckEvents]

/-- C6, witnessed at a concrete drifting engine: the drift retry makes the
second apply call, preceded by the reinit to the default config id. -/
theorem c6_apply_witness :
    (("A") : String) ≠ ("B")
    ∧ ∃ pre post, (ExecuteMixin.process_redo_record
        (Engine.mk (ApplyResult.err ("boom")) ("A") ("B") ApplyResult.ok ("") (""))
        ("R1")).2
      = pre ++ ExecEvent.reinit ("B") :: ExecEvent.applyCall ("R1") :: post :=
  (c6_apply_at_most_twice
      (Engine.mk (ApplyResult.err ("boom")) ("A") ("B") ApplyResult.ok ("") (""))
      ("R1")).2.2.1 (by decide)

/-- C8: an engine-backed Execute stage returns `processed=false` exactly
when the engine raised a generic error whose text contains "Database
Connection Failure" or "Database Connection Lost"; in that case the
outcome is a plain return (so the process did not exit) and the trace
contains no send to the failure queue. -/
theorem c8_processed_false_iff_db_error (eng : Engine) (r : String) :
    ((ExecuteMixin.process_redo_record eng r).1 = ExecOutcome.returned false
      ↔ ∃ msg, eng.firstApply = ApplyResult.err msg ∧ is_db_connection_error msg = true)
    ∧ ((ExecuteWithInfoMixin.process_redo_record eng r).1 = ExecOutcome.returned false
      ↔ ∃ msg, eng.firstApply = ApplyResult.err msg ∧ is_db_connection_error msg = true)
    ∧ (∀ msg, eng.firstApply = ApplyResult.err msg → is_db_connection_error msg = true →
        failureSends (ExecuteMixin.process_redo_record eng r).2 = 0
        ∧ failureSends (ExecuteWithInfoMixin.process_redo_record eng r).2 = 0) := by
  obtain ⟨fa, a, d, sa, i1, i2⟩ := eng
  cases fa with
  | ok =>
      refine ⟨?_, ?_, ?_⟩
      · simp [ExecuteMixin.process_redo_record]
      · simp [ExecuteWithInfoMixin.process_redo_record]
      · intro msg hmsg
        cases hmsg
  | notInit =>
      refine ⟨?_, ?_, ?_⟩
      · simp [ExecuteMixin.process_redo_record]
      · simp [ExecuteWithInfoMixin.process_redo_record]
      · intro msg hmsg
        cases hmsg
  | err msg =>
      by_cases hdb : is_db_connection_error msg
      · refine ⟨?_, ?_, ?_⟩
        · refine iff_of_true ?_ ⟨msg, rfl, hdb⟩
          simp [ExecuteMixin.process_redo_record, hdb]
        · refine iff_of_true ?_ ⟨msg, rfl, hdb⟩
          simp [ExecuteWithInfoMixin.process_redo_record, hdb]
        · intro m2 hm2 hdb2
          cases hm2
          constructor
          · simp [ExecuteMixin.process_redo_record, hdb, failureSends]
          · simp [ExecuteWithInfoMixin.process_redo_record, hdb, failureSends]
      · have hdbf : is_db_connection_error msg = false := by simpa using hdb
        refine ⟨?_, ?_, ?_⟩
        · constructor
          · intro hret
            by_cases hcfg : a ≠ d
            · cases sa <;>
                simp [ExecuteMixin.process_redo_record, hdbf, hcfg] at hret
            · simp [ExecuteMixin.process_redo_record, hdbf, hcfg] at hret
          · rintro ⟨m2, hm2, hdb2⟩
            cases hm2
            rw [hdbf] at hdb2
            cases hdb2
        · constructor
          · intro hret
            by_cases hcfg : a ≠ d
            · cases sa <;>
                simp [ExecuteWithInfoMixin.process_redo_record, hdbf, hcfg] at hret
            · simp [ExecuteWithInfoMixin.process_redo_record, hdbf, hcfg] at hret
          · rintro ⟨m2, hm2, hdb2⟩
            cases hm2
            rw [hdbf] at hdb2
            cases hdb2
        · intro m2 hm2 hdb2
          cases hm2
          rw [hdbf] at hdb2
          cases hdb2

/-- C8, witnessed at a concrete engine raising a connection-lost error. -/
theorem c8_processed_false_witness :
    (ExecuteMixin.process_redo_record
        (Engine.mk (ApplyResult.err ("xyz Database Connection Lost abc")) ("A") ("A")
          ApplyResult.ok ("") ("")) ("R1")).1
      = ExecOutcome.returned false :=
  (c8_processed_false_iff_db_error
      (Engine.mk (ApplyResult.err ("xyz Database Connection Lost abc")) ("A") ("A")
        ApplyResult.ok ("") ("")) ("R1")).1.mpr
    ⟨("xyz Database Connection Lost abc"), rfl, by decide⟩

end Redoer
